import Mathlib

/-!
# Verification of the Bunjang–Shopify gateway pipeline

A shallow embedding, in Lean 4, of the core of the `bunjang-shopify-backend`
repository: credential issuance (`bunjangAuthService.js`, and the hand-rolled
token in the standalone proxy server), the TTL cache service (`cacheService.js`
wrapping `node-cache`), the exchange-rate cache and price conversion of the
standalone proxy server, the response normalizers (`transformToShopifyFormat`
and the inline product map), the cache-key construction and `size`-parameter
handling of the products routes, and the cache-fallback coordinator
(`BunjangService.getProducts`).

JavaScript numbers are idealized as exact rationals (`ℚ`), with `NaN`
represented explicitly; absent (`undefined`) fields are `Option`s.  Timestamps
are natural numbers of milliseconds (`Date.now()`), except where the source
divides down to seconds.
-/

namespace BunjangShopify

/-! ## JavaScript numeric model

A JavaScript number is either an (idealized, exact) rational or `NaN`.
Arithmetic propagates `NaN`; an `undefined` operand coerces to `NaN`. -/

/-- A JavaScript number: an exact rational, or `NaN`. -/
inductive JsNum where
  | num (q : ℚ)
  | nan
deriving DecidableEq, Repr

/-- Coercion of a possibly-absent numeric field into arithmetic:
`undefined` becomes `NaN`. -/
def jsOfOpt : Option ℚ → JsNum
  | none => JsNum.nan
  | some q => JsNum.num q

/-- JavaScript multiplication: `NaN` propagates. -/
def jsMul : JsNum → JsNum → JsNum
  | JsNum.num a, JsNum.num b => JsNum.num (a * b)
  | _, _ => JsNum.nan

/-- JavaScript division by a nonzero literal constant: `NaN` propagates. -/
def jsDivConst (x : JsNum) (c : ℚ) : JsNum :=
  match x with
  | JsNum.num a => JsNum.num (a / c)
  | JsNum.nan => JsNum.nan

/-- JavaScript `Math.round`: round half toward positive infinity,
`Math.round x = ⌊x + 1/2⌋`; `NaN` maps to `NaN`. -/
def jsMathRound : JsNum → JsNum
  | JsNum.num q => JsNum.num ((⌊q + 1/2⌋ : ℤ) : ℚ)
  | JsNum.nan => JsNum.nan

/-! ## Price conversion

From the standalone proxy server (`convertPriceToUSD(krwPrice, exchangeRate)`):
```js
const usdPrice = krwPrice * exchangeRate;
const priceWithMarkup = usdPrice * 1.10; // Add 10% markup
return Math.round(priceWithMarkup * 100) / 100;
```
and from `BunjangService.convertPriceToUSD(krwPrice)` in the serverless
variant, which uses a fixed rate (`1 USD = 1350 KRW`) instead of a current
exchange rate:
```js
const usdPrice = krwPrice / USD_EXCHANGE_RATE;   // 1350
const priceWithMarkup = usdPrice * (1 + MARKUP_PERCENT); // 0.10
return Math.round(priceWithMarkup * 100) / 100;
```
-/

/-- Function `convertPriceToUSD` of the standalone proxy server: multiply by the
current exchange rate, add 10% markup, round to 2 decimals with
`Math.round`. -/
def convertPriceToUSD (krwPrice exchangeRate : JsNum) : JsNum :=
  let usdPrice := jsMul krwPrice exchangeRate
  let priceWithMarkup := jsMul usdPrice (JsNum.num (11/10))
  jsDivConst (jsMathRound (jsMul priceWithMarkup (JsNum.num 100))) 100

/-- Method `BunjangService.convertPriceToUSD` of the serverless variant: fixed
divisor 1350, 10% markup, round to 2 decimals. -/
def vercelConvertPriceToUSD (krwPrice : JsNum) : JsNum :=
  let usdPrice := jsDivConst krwPrice 1350
  let priceWithMarkup := jsMul usdPrice (JsNum.num (1 + 10/100))
  jsDivConst (jsMathRound (jsMul priceWithMarkup (JsNum.num 100))) 100

/-- Modelled from the spec: `round2` rounds half away from zero to 2 decimal
places (the spec's stated rounding rule, written here for comparison with the
source's `Math.round`-based computation). -/
def round2Away (q : ℚ) : ℚ :=
  (((if q < 0 then -⌊-q * 100 + 1/2⌋ else ⌊q * 100 + 1/2⌋) : ℤ) : ℚ) / 100

/-! ## String helpers: JavaScript `String.prototype.replace` with a string
pattern replaces only the first occurrence. -/

/-- Does `pat` occur at the head of `s`? -/
def charsMatch : List Char → List Char → Bool
  | [], _ => true
  | _ :: _, [] => false
  | p :: ps, c :: cs => p = c && charsMatch ps cs

/-- Replace the first occurrence of `pat` in `s` by `repl` (no occurrence:
return `s` unchanged). -/
def replaceFirstAux (pat repl : List Char) : List Char → List Char
  | [] => []
  | c :: cs =>
      if charsMatch pat (c :: cs) then repl ++ (c :: cs).drop pat.length
      else c :: replaceFirstAux pat repl cs

/-- JavaScript `s.replace(pat, repl)` for a string pattern: first occurrence
only. -/
def jsReplace (s pat repl : String) : String :=
  String.mk (replaceFirstAux pat.data repl.data s.data)

/-! ## Image expansion

From the standalone proxy server (`generateImages`), identical to the inline
loop in both `transformToShopifyFormat` variants:
```js
function generateImages(template, count) {
  if (!template || !count) return [];
  const images = [];
  for (let i = 1; i <= count; i++) {
    images.push(template.replace('\x7bcnt\x7d', i));
  }
  return images;
}
```
An absent template is `none`; the falsy-template check also catches the empty
string.  An absent count is `none`; the falsy-count check catches `0`.  A
negative count passes the check but the loop body never runs. -/

/-- The count placeholder of the image URL template. -/
def cntPlaceholder : String := "\x7bcnt\x7d"

/-- Function `generateImages(template, count)`: positions `1..count` substituted into
the placeholder, in order; empty for an absent/empty template or a count that
is absent, zero, or negative. -/
def generateImages (template : Option String) (count : Option ℤ) : List String :=
  match template, count with
  | some t, some c =>
      if t = "" ∨ c = 0 then []
      else (List.range' 1 c.toNat).map (fun i => jsReplace t cntPlaceholder (toString i))
  | _, _ => []

/-! ## Raw upstream records and the normalizers -/

/-- A raw Bunjang product record, with the fields the normalizers read.
Optional fields model fields that may be absent (`undefined`) in the upstream
response. -/
structure BunjangProduct where
  pid : String
  name : String
  description : Option String
  price : Option ℚ
  shippingFee : Option ℚ
  imageUrlTemplate : Option String
  imageCount : Option ℤ
  condition : Option String
  saleStatus : Option String
  viewCount : Option ℕ
  favoriteCount : Option ℕ
  uid : Option String
  updateTime : Option String
deriving DecidableEq, Repr

/-- The normalized record produced by the standalone proxy server's inline
product map. -/
structure TransformedProduct where
  id : String
  title : String
  description : String
  price : JsNum
  priceKRW : Option ℚ
  shippingFee : JsNum
  shippingFeeKRW : Option ℚ
  currency : String
  images : List String
  url : String
  condition : Option String
  saleStatus : Option String
  views : ℕ
  likes : ℕ
  sellerUid : Option String
  createdAt : Option String
deriving DecidableEq, Repr

/-- The inline product map of the standalone proxy server's `/proxy/*`
products branch:
```js
const priceUSD = convertPriceToUSD(product.price, exchangeRate);
const shippingFeeUSD = convertPriceToUSD(product.shippingFee || 0, exchangeRate);
return { id: product.pid, title: product.name,
         description: product.description || '', price: priceUSD, ... };
```
Note `product.price` is passed with no default (absent → `NaN` in
arithmetic), while `product.shippingFee || 0` defaults to `0`. -/
def transformProduct (product : BunjangProduct) (exchangeRate : ℚ) : TransformedProduct :=
  { id := product.pid
    title := product.name
    description := product.description.getD ""
    price := convertPriceToUSD (jsOfOpt product.price) (JsNum.num exchangeRate)
    priceKRW := product.price
    shippingFee :=
      convertPriceToUSD (JsNum.num (product.shippingFee.getD 0)) (JsNum.num exchangeRate)
    shippingFeeKRW := product.shippingFee
    currency := "USD"
    images := generateImages product.imageUrlTemplate product.imageCount
    url := "https://m.bunjang.co.kr/products/" ++ product.pid
    condition := product.condition
    saleStatus := product.saleStatus
    views := product.viewCount.getD 0
    likes := product.favoriteCount.getD 0
    sellerUid := product.uid
    createdAt := product.updateTime }

/-- Method `BunjangService.transformToShopifyFormat` of the serverless variant:
the same image expansion, but prices converted with the fixed-rate
`convertPriceToUSD` (divisor 1350); `description || ''`,
`shippingFee || 0` defaulting as in the inline map.  Only the fields the
claims are about are carried. -/
def vercelTransformToShopifyFormat (product : BunjangProduct) : TransformedProduct :=
  { id := product.pid
    title := product.name
    description := product.description.getD ""
    price := vercelConvertPriceToUSD (jsOfOpt product.price)
    priceKRW := product.price
    shippingFee := vercelConvertPriceToUSD (JsNum.num (product.shippingFee.getD 0))
    shippingFeeKRW := product.shippingFee
    currency := "USD"
    images := generateImages product.imageUrlTemplate product.imageCount
    url := "https://m.bunjang.co.kr/products/" ++ product.pid
    condition := product.condition
    saleStatus := product.saleStatus
    views := product.viewCount.getD 0
    likes := product.favoriteCount.getD 0
    sellerUid := product.uid
    createdAt := product.updateTime }

/-! ## The TTL cache

`cacheService.js` wraps `node-cache` (options in the source: `stdTTL` =
`config.cache.productsTTL` (default 300), `checkperiod: 120`,
`useClones: false`; `deleteOnExpire` is left at its default `true`).
`node-cache` semantics: `set(key, value, ttl)` stores the value with expiry
timestamp `now + ttl*1000` ms (`ttl = 0` means no expiry; an omitted `ttl`
means `stdTTL`); `get(key)` returns the value while the entry is unexpired
and otherwise deletes the entry (`deleteOnExpire`) and returns `undefined`;
the periodic check deletes expired entries.  An entry is modelled as expired
once its age reaches its TTL. -/

/-- One stored cache entry: the value and its expiry timestamp in
milliseconds (`0` = no expiry). -/
structure CacheEntry (α : Type) where
  value : α
  expiresAt : ℕ
deriving DecidableEq, Repr

/-- The cache store: an association list from keys to entries (most recent
binding first). -/
abbrev CacheState (α : Type) : Type := List (String × CacheEntry α)

/-- The empty cache. -/
def cacheInit (α : Type) : CacheState α := []

/-- Raw lookup of a key's entry, ignoring expiry. -/
def lookupEntry {α : Type} (key : String) : CacheState α → Option (CacheEntry α)
  | [] => none
  | (k, e) :: rest => if k = key then some e else lookupEntry key rest

/-- Remove a key's bindings from the store. -/
def eraseKey {α : Type} (key : String) (st : CacheState α) : CacheState α :=
  st.filter (fun p => p.1 != key)

/-- The default per-entry TTL (`stdTTL`): `config.cache.productsTTL`,
defaulting to 300 seconds. -/
def stdTTL : ℕ := 300

/-- Method `CacheService.set(key, value, ttl)`: store `value` under `key` with the
given TTL in seconds (`none` = use `stdTTL`), replacing any existing entry
and its expiry. -/
def cacheSet {α : Type} (st : CacheState α) (key : String) (value : α)
    (ttl : Option ℕ) (now : ℕ) : CacheState α :=
  let t := ttl.getD stdTTL
  (key, { value := value, expiresAt := if t = 0 then 0 else now + t * 1000 }) ::
    eraseKey key st

/-- Method `CacheService.get(key)` at time `now`: return the value while the entry
is unexpired; an expired entry is deleted (`deleteOnExpire`) and the lookup
reports a miss (`undefined`).  Returns the result and the possibly-updated
store. -/
def cacheGet {α : Type} (st : CacheState α) (key : String) (now : ℕ) :
    Option α × CacheState α :=
  match lookupEntry key st with
  | none => (none, st)
  | some e =>
      if e.expiresAt ≠ 0 ∧ e.expiresAt ≤ now then (none, eraseKey key st)
      else (some e.value, st)

/-- Method `CacheService.del(key)`. -/
def cacheDel {α : Type} (st : CacheState α) (key : String) : CacheState α :=
  eraseKey key st

/-- Method `CacheService.flush()`. -/
def cacheFlush {α : Type} (_ : CacheState α) : CacheState α := []

/-- Modelled from the spec: the `CacheService` in the source exposes no
ignore-TTL accessor (its methods are exactly `get`, `set`, `del`, `flush`,
`getStats`).  Per the spec's words, `getIgnoringTTL(key)` "returns the last
stored value even if logically expired" and distinguishes an absent key from
an expired one; reading the stored entry while ignoring its expiry timestamp
is the only behaviour on the cache state meeting that description. -/
def specGetIgnoringTTL {α : Type} (st : CacheState α) (key : String) : Option α :=
  (lookupEntry key st).map (fun e => e.value)

/-! ## Query parameters, `JSON.stringify`, and the products cache key

Both `BunjangService.getProducts` and the serverless `getProducts` compute
the cache key as `products:${JSON.stringify(params)}`, where `params` is the
object built by the route handler.  `JSON.stringify` serializes an object's
properties in insertion order. -/

/-- A JSON-able parameter value as built by the products route handler:
a string, an integer, or a boolean. -/
inductive ParamValue where
  | str (s : String)
  | int (n : ℤ)
  | bool (b : Bool)
deriving DecidableEq, Repr

/-- JSON string escaping (backslash and double quote; the parameters the
routes build contain no control characters). -/
def jsonEscapeChar (c : Char) : List Char :=
  if c = '\\' then ['\\', '\\']
  else if c = '"' then ['\\', '"']
  else [c]

/-- A JSON string literal. -/
def jsonQuote (s : String) : String :=
  String.mk ('"' :: s.data.flatMap jsonEscapeChar ++ ['"'])

/-- Serialize one parameter value as JSON. -/
def serializeParamValue : ParamValue → String
  | ParamValue.str s => jsonQuote s
  | ParamValue.int n => toString n
  | ParamValue.bool b => if b then "true" else "false"

/-- Serialization `JSON.stringify` of a parameters object: properties in insertion
order. -/
def jsonStringifyParams (params : List (String × ParamValue)) : String :=
  "\x7b" ++
    String.intercalate ","
      (params.map (fun p => jsonQuote p.1 ++ ":" ++ serializeParamValue p.2)) ++
    "\x7d"

/-- The products cache key: `products:${JSON.stringify(params)}`. -/
def productsCacheKey (params : List (String × ParamValue)) : String :=
  "products:" ++ jsonStringifyParams params

/-! ## `parseInt` and the `size` parameter

The products route handlers compute
`size: Math.min(parseInt(size), 100)` with `size` defaulting to `12`;
`Math.min(NaN, 100)` is `NaN`. -/

/-- Decimal value of a digit list. -/
def digitsToNat (ds : List Char) : ℕ :=
  ds.foldl (fun acc c => acc * 10 + (c.toNat - '0'.toNat)) 0

/-- Parse the leading decimal digits of a character list; `none` when there
is no leading digit. -/
def leadingNat (cs : List Char) : Option ℕ :=
  let ds := cs.takeWhile Char.isDigit
  if ds.isEmpty then none else some (digitsToNat ds)

/-- JavaScript `parseInt(s)` in base 10: skip leading whitespace, optional
sign, then leading digits; `none` models `NaN`.  (Trailing non-digits are
ignored.) -/
def jsParseInt (s : String) : Option ℤ :=
  let cs := s.data.dropWhile (fun c => c = ' ' ∨ c = '\t' ∨ c = '\n' ∨ c = '\r')
  match cs with
  | '-' :: rest => (leadingNat rest).map (fun n => -(n : ℤ))
  | '+' :: rest => (leadingNat rest).map (fun n => (n : ℤ))
  | rest => (leadingNat rest).map (fun n => (n : ℤ))

/-- The `size` value the products route handlers place into the upstream
`params`: `Math.min(parseInt(size), 100)`, with `size` defaulting to `12`
when absent from the query; `none` models `NaN` (non-numeric input). -/
def forwardedSize (sizeQuery : Option String) : Option ℤ :=
  match jsParseInt (sizeQuery.getD "12") with
  | some n => some (min n 100)
  | none => none

/-! ## The products coordinator with cache fallback

`BunjangService.getProducts(params)`:
```js
const cacheKey = `products:$\x7bJSON.stringify(params)\x7d`;
const cached = cacheService.get(cacheKey);
if (cached) return cached;
try {
  const response = await this.client.get('/api/v1/products', { params });
  cacheService.set(cacheKey, response.data, config.cache.productsTTL);
  return response.data;
} catch (error) {
  // Return cached data if available, even if expired
  const expiredCache = cacheService.get(cacheKey);
  if (expiredCache) return expiredCache;
  throw error;
}
```
The single upstream call's outcome is an explicit input
(`Except String α`); cached data objects are truthy.  Note that both cache
reads use the TTL-respecting `get`. -/

/-- Method `BunjangService.getProducts`, as a function of the cache state, the
cache key, the current time, and the upstream call's outcome.  Returns the
response (`Except.error` models the rethrown exception) and the updated
cache state. -/
def getProductsCoordinator {α : Type} (cache : CacheState α) (cacheKey : String)
    (now : ℕ) (upstream : Except String α) : Except String α × CacheState α :=
  match cacheGet cache cacheKey now with
  | (some cached, st) => (Except.ok cached, st)
  | (none, st) =>
      match upstream with
      | Except.ok data =>
          (Except.ok data, cacheSet st cacheKey data (some stdTTL) now)
      | Except.error e =>
          match cacheGet st cacheKey now with
          | (some expiredCache, st2) => (Except.ok expiredCache, st2)
          | (none, st2) => (Except.error e, st2)

/-! ## The exchange-rate cache

From the standalone proxy server:
```js
let exchangeRateCache = { rate: 0.00074, timestamp: 0, ttl: 3600000 };
async function getExchangeRate() {
  const now = Date.now();
  if (exchangeRateCache.rate && (now - exchangeRateCache.timestamp < exchangeRateCache.ttl)) {
    return exchangeRateCache.rate;
  }
  try {
    const response = await axios.get(EXCHANGE_RATE_API_URL, { timeout: 5000 });
    const usdRate = response.data.rates?.USD || response.data.conversion_rates?.USD;
    if (usdRate) {
      exchangeRateCache = { rate: usdRate, timestamp: now, ttl: 3600000 };
      return usdRate;
    }
  } catch (error) { ... }
  return exchangeRateCache.rate;
}
```
The fetch outcome is an explicit input: `RateFetch.ok usd` is a 2xx response
whose extracted rate field is `usd` (`none` when both alternative field names
are missing), `RateFetch.fail` is a thrown error/timeout.  `rate` is an
`Option ℚ` so that "undefined" is representable (`none`); truthiness of a
number excludes `0`. -/

/-- The mutable exchange-rate cache record. -/
structure RateCache where
  rate : Option ℚ
  timestamp : ℕ
  ttl : ℕ
deriving DecidableEq, Repr

/-- The module-initializer value: fallback rate `0.00074`, timestamp 0,
TTL one hour (ms). -/
def initRateCache : RateCache :=
  { rate := some (74 / 100000), timestamp := 0, ttl := 3600000 }

/-- Outcome of one exchange-rate provider call. -/
inductive RateFetch where
  | ok (usdRate : Option ℚ)
  | fail
deriving DecidableEq, Repr

/-- JavaScript truthiness of a possibly-undefined number. -/
def numTruthy : Option ℚ → Bool
  | none => false
  | some q => q != 0

/-- One `getExchangeRate()` call at time `now` (ms) whose provider call, if
made, has outcome `fetch`: returns the updated cache record and the returned
rate. -/
def getExchangeRateStep (st : RateCache) (now : ℕ) (fetch : RateFetch) :
    RateCache × Option ℚ :=
  if numTruthy st.rate ∧ now - st.timestamp < st.ttl then (st, st.rate)
  else
    match fetch with
    | RateFetch.ok usdRate =>
        if numTruthy usdRate then
          ({ rate := usdRate, timestamp := now, ttl := 3600000 }, usdRate)
        else (st, st.rate)
    | RateFetch.fail => (st, st.rate)

/-- Run a sequence of `getExchangeRate()` calls (each a time and a provider
outcome) from a starting cache record. -/
def runRateCalls (st : RateCache) (calls : List (ℕ × RateFetch)) : RateCache :=
  calls.foldl (fun s c => (getExchangeRateStep s c.1 c.2).1) st

/-- A provider outcome that does not update the cache: a thrown error, or a
response whose extracted rate field is falsy. -/
def rateFetchFruitless : RateFetch → Prop
  | RateFetch.ok usdRate => numTruthy usdRate = false
  | RateFetch.fail => True

/-! ## Credential issuance

`BunjangAuthService.generateToken(method)`:
```js
const payload = {
  iat: Math.floor(Date.now() / 1000),
  accessKey: this.accessKey,
  nonce: uuidv4(), // Always include nonce for all methods
};
const secretKeyBuffer = Buffer.from(this.secretKey, 'base64');
const token = jwt.sign(payload, secretKeyBuffer, { algorithm: 'HS256', expiresIn: '5s' });
```
The nonce source (`uuidv4()`) and the clock are explicit inputs; `jwt.sign`
(an external library) is modelled at its interface: the signed token carries
the header `\x7balg: HS256, typ: JWT\x7d`, the payload with the library-added
`exp = iat + 5` claim, and an HMAC-SHA256 signature over the canonical
encoding of header and payload.  HMAC-SHA256 itself is an external primitive
and enters as a function parameter.  The `method` argument is only logged;
it does not enter the token. -/

/-- A JWT header. -/
structure JwtHeader where
  alg : String
  typ : String
deriving DecidableEq, Repr

/-- A JWT payload as this service builds it (with the `exp` claim the
library adds for `expiresIn: '5s'`). -/
structure JwtPayload where
  iat : ℕ
  accessKey : String
  nonce : String
  exp : ℕ
deriving DecidableEq, Repr

/-- A signed token at the `jwt.sign` interface. -/
structure JwtToken where
  header : JwtHeader
  payload : JwtPayload
  signature : List ℕ
deriving DecidableEq, Repr

/-- The canonical JSON encoding of the payload (character list). -/
def payloadJsonChars (p : JwtPayload) : List Char :=
  ("\x7b\"iat\":" ++ toString p.iat ++ ",\"accessKey\":\"" ++ p.accessKey ++
      "\",\"nonce\":\"").data ++
    p.nonce.data ++
    ("\",\"exp\":" ++ toString p.exp ++ "\x7d").data

/-- The canonical JSON encoding of the header. -/
def headerJsonChars (h : JwtHeader) : List Char :=
  "\x7b\"alg\":\"".data ++ h.alg.data ++ "\",\"typ\":\"".data ++ h.typ.data ++
    "\"\x7d".data

/-- The byte string that is HMAC-signed: encoded header, a dot, encoded
payload. -/
def signingInput (h : JwtHeader) (p : JwtPayload) : List Char :=
  headerJsonChars h ++ '.' :: payloadJsonChars p

/-- Method `BunjangAuthService.generateToken`: issue a token at time `nowMs` with
the given fresh nonce.  `hmac` is the HMAC-SHA256 primitive keyed with the
base64-decoded secret; `method` does not enter the token. -/
def generateToken (hmac : List Char → List ℕ) (accessKey nonce : String)
    (nowMs : ℕ) (method : String) : JwtToken :=
  let payload : JwtPayload :=
    { iat := nowMs / 1000, accessKey := accessKey, nonce := nonce,
      exp := nowMs / 1000 + 5 }
  let header : JwtHeader := { alg := "HS256", typ := "JWT" }
  { header := header, payload := payload,
    signature := hmac (signingInput header payload) }

/-! The standalone proxy server builds its token by hand
(`generateBunjangToken()`): no `exp` claim, explicit base64url encoding and
dot-joining.  `base64url` encoding (`Buffer.toString('base64url')`) and the
HMAC are external primitives and enter as function parameters. -/

/-- The payload of the hand-rolled token (no `exp` claim). -/
structure BunjangTokenPayload where
  iat : ℕ
  accessKey : String
  nonce : String
deriving DecidableEq, Repr

/-- Serialization `JSON.stringify` of the hand-rolled payload (character list; property
insertion order). -/
def bunjangPayloadJsonChars (p : BunjangTokenPayload) : List Char :=
  ("\x7b\"iat\":" ++ toString p.iat ++ ",\"accessKey\":\"" ++ p.accessKey ++
      "\",\"nonce\":\"").data ++
    p.nonce.data ++ "\"\x7d".data

/-- Function `generateBunjangToken()` of the standalone proxy server:
`b64(header) ++ "." ++ b64(payload) ++ "." ++ hmacB64(b64(header) ++ "." ++ b64(payload))`,
where `b64` is base64url encoding and `hmacB64` is HMAC-SHA256 followed by
base64url encoding (both external primitives, passed as parameters). -/
def generateBunjangToken (b64 hmacB64 : List Char → List Char)
    (accessKey nonce : String) (nowMs : ℕ) : List Char :=
  let payload : BunjangTokenPayload :=
    { iat := nowMs / 1000, accessKey := accessKey, nonce := nonce }
  let headerEnc := b64 "\x7b\"alg\":\"HS256\",\"typ\":\"JWT\"\x7d".data
  let payloadEnc := b64 (bunjangPayloadJsonChars payload)
  let signature := hmacB64 (headerEnc ++ '.' :: payloadEnc)
  headerEnc ++ '.' :: (payloadEnc ++ '.' :: signature)

/-! ## The products route response envelope

From the `GET /shopify-proxy/products` handler (and identically in the
serverless variant):
```js
let products = [];
if (data.data && Array.isArray(data.data)) {
  products = data.data.map((product) => bunjangService.transformToShopifyFormat(product));
}
res.json({ success: true, data: { products, pagination: {
  cursor: data.nextCursor, hasNext: data.hasNext,
  size: parseInt(size), count: products.length } } });
```
-/

/-- The `data` field of an upstream products response: absent/falsy, truthy
but not an array, or an array of raw records. -/
inductive DataField where
  | absent
  | notArray
  | arr (products : List BunjangProduct)
deriving DecidableEq, Repr

/-- An upstream products response as the route handler reads it. -/
structure UpstreamProductsData where
  data : DataField
  nextCursor : Option String
  hasNext : Option Bool
deriving DecidableEq, Repr

/-- The success envelope the products route sends. -/
structure ProductsResponse where
  success : Bool
  products : List TransformedProduct
  cursor : Option String
  hasNext : Option Bool
  size : Option ℤ
  count : ℕ
deriving DecidableEq, Repr

/-- The products route's response construction from a successfully returned
upstream payload: non-array or absent `data.data` leaves `products` empty;
the envelope is always `success: true`. -/
def productsRouteResponse (data : UpstreamProductsData) (sizeQuery : Option String) :
    ProductsResponse :=
  let products :=
    match data.data with
    | DataField.arr l => l.map vercelTransformToShopifyFormat
    | _ => []
  { success := true
    products := products
    cursor := data.nextCursor
    hasNext := data.hasNext
    size := jsParseInt (sizeQuery.getD "12")
    count := products.length }

/-! # Theorems -/

/-! ## Helper lemmas -/

/-- For nonnegative amounts and rates, the code's `Math.round`-based
conversion agrees with the spec's round-half-away-from-zero `round2` of
`sourceAmount * rate * 1.10`. -/
theorem convertPriceToUSD_eq_round2Away (s r : ℚ) (hs : 0 ≤ s) (hr : 0 ≤ r) :
    convertPriceToUSD (JsNum.num s) (JsNum.num r) =
      JsNum.num (round2Away (s * r * (11 / 10))) := by
  have h0 : (0 : ℚ) ≤ s * r * (11 / 10) := by positivity
  simp only [convertPriceToUSD, jsMul, jsDivConst, jsMathRound, round2Away,
    if_neg (not_lt.mpr h0), JsNum.num.injEq]

/-- Converting a zero source amount yields exactly zero. -/
theorem convertPriceToUSD_zero (r : ℚ) :
    convertPriceToUSD (JsNum.num 0) (JsNum.num r) = JsNum.num 0 := by
  simp [convertPriceToUSD, jsMul, jsDivConst, jsMathRound]
  norm_num

/-- Converting an absent (`undefined`) source amount yields `NaN`. -/
theorem convertPriceToUSD_nan (r : JsNum) :
    convertPriceToUSD JsNum.nan r = JsNum.nan := by
  cases r <;> rfl

/-- The image list for a positive count, unfolded to the loop's range. -/
theorem generateImages_pos (t : String) (ht : ¬t = "") (c : ℤ) (hc : 1 ≤ c) :
    generateImages (some t) (some c) =
      (List.range' 1 c.toNat).map (fun i => jsReplace t cntPlaceholder (toString i)) := by
  have hne : ¬(t = "" ∨ c = 0) := by
    push_neg
    exact ⟨ht, by omega⟩
  simp [generateImages, hne]

/-! ## C3 — price conversion formula -/

/-- C3: for every raw record field value `s ≥ 0` and exchange rate `r ≥ 0`,
the normalizer's target price and target shipping fee are
`round2(s * r * 1.10)` with `round2` rounding half away from zero to two
decimals; in particular source amount 10000 at rate 0.00074 yields 8.14. -/
theorem claim_C3_price_conversion (r : ℚ) (hr : 0 ≤ r) :
    (∀ (p : BunjangProduct) (s : ℚ), 0 ≤ s →
      (p.price = some s →
        (transformProduct p r).price = JsNum.num (round2Away (s * r * (11 / 10)))) ∧
      (p.shippingFee = some s →
        (transformProduct p r).shippingFee = JsNum.num (round2Away (s * r * (11 / 10))))) ∧
    convertPriceToUSD (JsNum.num 10000) (JsNum.num (74 / 100000)) =
      JsNum.num (814 / 100) := by
  refine ⟨fun p s hs => ⟨fun hp => ?_, fun hp => ?_⟩, ?_⟩
  · simp only [transformProduct, hp, jsOfOpt]
    exact convertPriceToUSD_eq_round2Away s r hs hr
  · simp only [transformProduct, hp, Option.getD_some]
    exact convertPriceToUSD_eq_round2Away s r hs hr
  · simp only [convertPriceToUSD, jsMul, jsDivConst, jsMathRound, JsNum.num.injEq]
    norm_num

/-- Witness for C3 at rate 0.00074 and a record priced 10000 KRW with
shipping fee 2500 KRW. -/
theorem claim_C3_price_conversion_witness :
    (transformProduct
        { pid := "1", name := "item", description := none, price := some 10000,
          shippingFee := some 2500, imageUrlTemplate := none, imageCount := none,
          condition := none, saleStatus := none, viewCount := none,
          favoriteCount := none, uid := none, updateTime := none }
        (74 / 100000)).price = JsNum.num (round2Away (10000 * (74 / 100000) * (11 / 10))) := by
  exact ((claim_C3_price_conversion (74 / 100000) (by norm_num)).1 _ 10000
    (by norm_num)).1 rfl

/-! ## C7 — image expansion -/

/-- C7: for a present, nonempty URL template and integer count `n ≥ 1`, image
expansion produces exactly the ordered sequence of `n` URLs with positions
`1..n` substituted into the placeholder; for `n ≤ 0` or an absent template
(or absent count) it produces the empty sequence; concretely, template
`"http://x/\x7bcnt\x7d.jpg"` with count 3 yields exactly the three URLs, and
count 0 yields the empty sequence. -/
theorem claim_C7_image_expansion (t : String) (ht : ¬t = "") (n : ℤ) :
    ((1 ≤ n →
        (generateImages (some t) (some n)).length = n.toNat ∧
        ∀ i : ℕ, i < n.toNat →
          (generateImages (some t) (some n))[i]? =
            some (jsReplace t cntPlaceholder (toString (i + 1)))) ∧
      (n ≤ 0 → generateImages (some t) (some n) = []) ∧
      generateImages none (some n) = [] ∧
      generateImages (some t) none = []) ∧
    generateImages (some "http://x/\x7bcnt\x7d.jpg") (some 3) =
      ["http://x/1.jpg", "http://x/2.jpg", "http://x/3.jpg"] ∧
    generateImages (some "http://x/\x7bcnt\x7d.jpg") (some 0) = [] := by
  refine ⟨⟨fun hn => ?_, fun hn => ?_, rfl, rfl⟩, by decide, by decide⟩
  · rw [generateImages_pos t ht n hn]
    refine ⟨by simp, fun i hi => ?_⟩
    rw [List.getElem?_map, List.getElem?_range' 1 1 hi]
    simp [Nat.add_comm]
  · by_cases h0 : n = 0
    · simp [generateImages, h0]
    · have hne : ¬(t = "" ∨ n = 0) := by
        push_neg
        exact ⟨ht, h0⟩
      have htn : n.toNat = 0 := by omega
      simp [generateImages, hne, htn]

/-- Witness for C7 at the spec's concrete template and count 3. -/
theorem claim_C7_image_expansion_witness :
    (generateImages (some "http://x/\x7bcnt\x7d.jpg") (some 3)).length = 3 ∧
    (generateImages (some "http://x/\x7bcnt\x7d.jpg") (some (-2 : ℤ))) = [] := by
  refine ⟨?_, ?_⟩
  · exact ((claim_C7_image_expansion "http://x/\x7bcnt\x7d.jpg" (by decide) 3).1.1
      (by norm_num)).1
  · exact (claim_C7_image_expansion "http://x/\x7bcnt\x7d.jpg" (by decide) (-2)).1.2.1
      (by norm_num)

/-! ## C4 — cache key construction -/

/-- Left-cancellation of string append. -/
theorem stringAppendCancelLeft (a b c : String) (h : a ++ b = a ++ c) : b = c := by
  have hd := congrArg String.data h
  simp only [String.data_append] at hd
  exact String.ext (List.append_cancel_left hd)

/-- C4 counterexample: the two parameter maps `\x7bq: "shoes", sort: "latest"\x7d`
and `\x7bsort: "latest", q: "shoes"\x7d` contain the same key/value pairs in
different orders (they are permutations of each other), yet their computed
cache keys differ — `JSON.stringify` serializes properties in insertion
order, so the serialization is not order-independent. -/
theorem claim_C4_counterexample :
    List.Perm
      ([("q", ParamValue.str "shoes"), ("sort", ParamValue.str "latest")] :
        List (String × ParamValue))
      [("sort", ParamValue.str "latest"), ("q", ParamValue.str "shoes")] ∧
    productsCacheKey [("q", ParamValue.str "shoes"), ("sort", ParamValue.str "latest")] ≠
      productsCacheKey [("sort", ParamValue.str "latest"), ("q", ParamValue.str "shoes")] := by
  constructor
  · exact List.Perm.swap _ _ _
  · decide

/-- C4 (amended): the cache key is the endpoint discriminator `products:`
followed by `JSON.stringify` of the parameters object, which serializes
properties in insertion order; two queries address the same cache entry
exactly when their parameter serializations are equal — equal ordered
parameter lists always give the same key, but the same pairs in a different
order need not (see the counterexample). -/
theorem claim_C4_cache_key (ps qs : List (String × ParamValue)) :
    productsCacheKey ps = productsCacheKey qs ↔
      jsonStringifyParams ps = jsonStringifyParams qs := by
  constructor
  · intro h
    exact stringAppendCancelLeft _ _ _ h
  · intro h
    simp [productsCacheKey, h]

/-! ## C5 — `size` parameter handling -/

/-- C5 counterexample: for the supplied string `"0"`, the `size` value
forwarded upstream is `0`, which is not in `[1, 100]` — the handler computes
`Math.min(parseInt(size), 100)`, an upper clamp only. -/
theorem claim_C5_counterexample :
    forwardedSize (some "0") = some 0 ∧
    ¬(∀ n : ℤ, forwardedSize (some "0") = some n → 1 ≤ n ∧ n ≤ 100) := by
  refine ⟨by decide, fun h => ?_⟩
  have h0 := h 0 (by decide)
  omega

/-- C5 (amended): the forwarded `size` is `min(parseInt(size), 100)` — it is
clamped above to at most 100, but there is no lower clamp: any parsed integer
(including `0` and negatives) passes through under `100` unchanged, and
non-numeric input yields `NaN` (`none`); an absent `size` defaults to 12. -/
theorem claim_C5_size_clamp (s : String) :
    (∀ n : ℤ, jsParseInt s = some n →
      forwardedSize (some s) = some (min n 100) ∧ min n 100 ≤ 100) ∧
    (jsParseInt s = none → forwardedSize (some s) = none) ∧
    forwardedSize none = some 12 := by
  refine ⟨fun n hn => ?_, fun hn => ?_, by decide⟩
  · rw [forwardedSize, Option.getD_some, hn]
    exact ⟨rfl, min_le_right _ _⟩
  · rw [forwardedSize, Option.getD_some, hn]

/-- Witness for C5 at the oversized input `"250"`: parsed to 250 and clamped
to 100. -/
theorem claim_C5_size_clamp_witness :
    forwardedSize (some "250") = some 100 ∧
    forwardedSize (some "abc") = none := by
  constructor
  · have h := ((claim_C5_size_clamp "250").1 250 (by decide)).1
    simpa using h
  · exact (claim_C5_size_clamp "abc").2.1 (by decide)

/-! ## C6 — zero/absent amounts and defaults -/

/-- Zero through the fixed-rate converter is exactly zero. -/
theorem vercelConvertPriceToUSD_zero :
    vercelConvertPriceToUSD (JsNum.num 0) = JsNum.num 0 := by
  simp [vercelConvertPriceToUSD, jsMul, jsDivConst, jsMathRound]
  norm_num

/-- An absent amount through the fixed-rate converter is `NaN`. -/
theorem vercelConvertPriceToUSD_nan :
    vercelConvertPriceToUSD JsNum.nan = JsNum.nan := rfl

/-- C6 counterexample: a raw record with an absent `price` field (upstream
`price` is passed to the converter with no default) yields a `NaN` converted
price, not `0`, in both normalizer variants. -/
theorem claim_C6_counterexample :
    (transformProduct
        { pid := "2", name := "n", description := none, price := none,
          shippingFee := none, imageUrlTemplate := none, imageCount := none,
          condition := none, saleStatus := none, viewCount := none,
          favoriteCount := none, uid := none, updateTime := none }
        (74 / 100000)).price = JsNum.nan ∧
    (vercelTransformToShopifyFormat
        { pid := "2", name := "n", description := none, price := none,
          shippingFee := none, imageUrlTemplate := none, imageCount := none,
          condition := none, saleStatus := none, viewCount := none,
          favoriteCount := none, uid := none, updateTime := none }).price = JsNum.nan ∧
    JsNum.nan ≠ JsNum.num 0 := by
  refine ⟨?_, rfl, by decide⟩
  simp [transformProduct, jsOfOpt, convertPriceToUSD_nan]

/-- C6 (amended): a source amount of `0` yields a target of `0` for both
price and shipping fee; an absent shipping fee is defaulted
(`shippingFee || 0`) and also yields `0`; but an absent price is passed to
the converter with no default and yields `NaN`, not `0`.  Missing optional
fields degrade to defaults: absent description becomes the empty string,
absent view/favorite counts become `0`.  (Both normalizer variants.) -/
theorem claim_C6_zero_absent_defaults (p : BunjangProduct) (r : ℚ) :
    (p.price = some 0 → (transformProduct p r).price = JsNum.num 0 ∧
      (vercelTransformToShopifyFormat p).price = JsNum.num 0) ∧
    (p.shippingFee = none ∨ p.shippingFee = some 0 →
      (transformProduct p r).shippingFee = JsNum.num 0 ∧
      (vercelTransformToShopifyFormat p).shippingFee = JsNum.num 0) ∧
    (p.price = none → (transformProduct p r).price = JsNum.nan ∧
      (vercelTransformToShopifyFormat p).price = JsNum.nan) ∧
    (p.description = none → (transformProduct p r).description = "" ∧
      (vercelTransformToShopifyFormat p).description = "") ∧
    (p.viewCount = none → (transformProduct p r).views = 0) ∧
    (p.favoriteCount = none → (transformProduct p r).likes = 0) := by
  refine ⟨fun hp => ?_, fun hp => ?_, fun hp => ?_, fun hp => ?_, fun hp => ?_,
    fun hp => ?_⟩
  · constructor
    · simp only [transformProduct, hp, jsOfOpt]
      exact convertPriceToUSD_zero r
    · simp only [vercelTransformToShopifyFormat, hp, jsOfOpt]
      exact vercelConvertPriceToUSD_zero
  · have hd : p.shippingFee.getD 0 = 0 := by
      rcases hp with hp | hp <;> simp [hp]
    constructor
    · simp only [transformProduct, hd]
      exact convertPriceToUSD_zero r
    · simp only [vercelTransformToShopifyFormat, hd]
      exact vercelConvertPriceToUSD_zero
  · constructor
    · simp only [transformProduct, hp, jsOfOpt]
      exact convertPriceToUSD_nan _
    · simp only [vercelTransformToShopifyFormat, hp, jsOfOpt]
      exact vercelConvertPriceToUSD_nan
  · simp [transformProduct, vercelTransformToShopifyFormat, hp]
  · simp [transformProduct, hp]
  · simp [transformProduct, hp]

/-- Witness for C6 at a record with zero price, absent shipping fee and
absent description. -/
theorem claim_C6_zero_absent_defaults_witness :
    (transformProduct
        { pid := "3", name := "n", description := none, price := some 0,
          shippingFee := none, imageUrlTemplate := none, imageCount := none,
          condition := none, saleStatus := none, viewCount := none,
          favoriteCount := none, uid := none, updateTime := none }
        (74 / 100000)).price = JsNum.num 0 ∧
    (transformProduct
        { pid := "3", name := "n", description := none, price := some 0,
          shippingFee := none, imageUrlTemplate := none, imageCount := none,
          condition := none, saleStatus := none, viewCount := none,
          favoriteCount := none, uid := none, updateTime := none }
        (74 / 100000)).shippingFee = JsNum.num 0 := by
  have h := claim_C6_zero_absent_defaults
    { pid := "3", name := "n", description := none, price := some 0,
      shippingFee := none, imageUrlTemplate := none, imageCount := none,
      condition := none, saleStatus := none, viewCount := none,
      favoriteCount := none, uid := none, updateTime := none }
    (74 / 100000)
  exact ⟨(h.1 rfl).1, (h.2.1 (Or.inl rfl)).1⟩

/-! ## C2 — cache TTL semantics and the ignore-TTL accessor -/

/-- After erasing a key, raw lookup of that key finds nothing. -/
theorem lookupEntry_eraseKey {α : Type} (k : String) (st : CacheState α) :
    lookupEntry k (eraseKey k st) = none := by
  induction st with
  | nil => rfl
  | cons hd tl ih =>
    by_cases h : hd.1 = k
    · simpa [eraseKey, List.filter_cons, h] using ih
    · simpa [eraseKey, List.filter_cons, h, lookupEntry] using ih

/-- Raw lookup right after `set` finds the fresh entry. -/
theorem lookupEntry_cacheSet {α : Type} (st : CacheState α) (k : String) (v : α)
    (ttl : ℕ) (t₀ : ℕ) (ht : ttl ≠ 0) :
    lookupEntry k (cacheSet st k v (some ttl) t₀) =
      some { value := v, expiresAt := t₀ + ttl * 1000 } := by
  simp [cacheSet, lookupEntry, ht]

/-- C2 counterexample: `set("k", 42, ttl = 1s)` at time 0; at time 1000 ms the
entry's age has reached its TTL, `get` reports a miss as the claim states —
but the miss deletes the entry (`node-cache` `deleteOnExpire`), and the
ignore-TTL read of the resulting cache state returns `absent`, not `42`:
no accessor of the source's `CacheService` (whose methods are exactly `get`,
`set`, `del`, `flush`, `getStats`) can still return the stored value. -/
theorem claim_C2_counterexample :
    (cacheGet (cacheSet (cacheInit ℕ) "k" 42 (some 1) 0) "k" 500).1 = some 42 ∧
    (cacheGet (cacheSet (cacheInit ℕ) "k" 42 (some 1) 0) "k" 1000).1 = none ∧
    specGetIgnoringTTL
        (cacheGet (cacheSet (cacheInit ℕ) "k" 42 (some 1) 0) "k" 1000).2 "k" ≠
      some 42 := by
  decide

/-- C2 (amended): after `set(k, v, t)` at time `t₀` (with `t ≠ 0` seconds),
`get(k)` returns `v` while the entry's age is below `t`; once the age reaches
or exceeds `t`, `get(k)` reports a miss and deletes the entry, after which
the stored value is not retrievable — even a read of the raw store ignoring
TTL finds nothing, and the source's `CacheService` exposes no ignore-TTL
accessor in the first place, so an expired key is indistinguishable from an
absent one. -/
theorem claim_C2_ttl_semantics {α : Type} (st : CacheState α) (k : String) (v : α)
    (ttl t₀ now : ℕ) (ht : ttl ≠ 0) :
    (now < t₀ + ttl * 1000 →
      cacheGet (cacheSet st k v (some ttl) t₀) k now =
        (some v, cacheSet st k v (some ttl) t₀)) ∧
    (t₀ + ttl * 1000 ≤ now →
      (cacheGet (cacheSet st k v (some ttl) t₀) k now).1 = none ∧
      specGetIgnoringTTL (cacheGet (cacheSet st k v (some ttl) t₀) k now).2 k =
        none) := by
  have hlu := lookupEntry_cacheSet st k v ttl t₀ ht
  constructor
  · intro hfresh
    have hcond : ¬(t₀ + ttl * 1000 ≠ 0 ∧ t₀ + ttl * 1000 ≤ now) := by omega
    simp only [cacheGet, hlu]
    rw [if_neg hcond]
  · intro hexp
    have hcond : t₀ + ttl * 1000 ≠ 0 ∧ t₀ + ttl * 1000 ≤ now := ⟨by omega, hexp⟩
    refine ⟨?_, ?_⟩
    · simp only [cacheGet, hlu]
      rw [if_pos hcond]
    · simp only [cacheGet, hlu]
      rw [if_pos hcond]
      simp [specGetIgnoringTTL, lookupEntry_eraseKey]

/-- Witness for C2 (amended) at `k := "k"`, `v := 42`, `ttl := 1`, stored at
time 0, read at 500 ms (fresh) and 1500 ms (expired). -/
theorem claim_C2_ttl_semantics_witness :
    cacheGet (cacheSet (cacheInit ℕ) "k" 42 (some 1) 0) "k" 500 =
      (some 42, cacheSet (cacheInit ℕ) "k" 42 (some 1) 0) ∧
    (cacheGet (cacheSet (cacheInit ℕ) "k" 42 (some 1) 0) "k" 1500).1 = none := by
  have h := claim_C2_ttl_semantics (cacheInit ℕ) "k" 42 1 0 500 (by decide)
  have h2 := claim_C2_ttl_semantics (cacheInit ℕ) "k" 42 1 0 1500 (by decide)
  exact ⟨h.1 (by norm_num), (h2.2 (by norm_num)).1⟩

/-! ## C1 — stale-on-error fallback of the coordinator -/

/-- C1: the fallback read in `getProducts`'s catch block is the TTL-respecting
`cacheService.get`, so a previously stored but expired value is *not*
returned on upstream failure — contradicting both the claim and the source's
own comment ("Return cached data if available, even if expired").
Concretely: the empty-parameters products key holds the value `7` stored at
time 0 with the 300-second products TTL; at time 301000 ms the upstream call
fails; the stored value is still in the cache state (the ignore-TTL read
returns it), yet the coordinator returns the error.  With no prior store the
coordinator also returns the error (that half of the claim holds). -/
theorem claim_C1_stale_fallback_code_bug :
    specGetIgnoringTTL
        (cacheSet (cacheInit ℕ) (productsCacheKey []) 7 (some stdTTL) 0)
        (productsCacheKey []) = some 7 ∧
    (getProductsCoordinator
        (cacheSet (cacheInit ℕ) (productsCacheKey []) 7 (some stdTTL) 0)
        (productsCacheKey []) 301000 (Except.error "upstream failure")).1 =
      Except.error "upstream failure" ∧
    (getProductsCoordinator (cacheInit ℕ) (productsCacheKey []) 301000
        (Except.error "upstream failure")).1 =
      Except.error "upstream failure" := by
  exact ⟨rfl, rfl, rfl⟩

/-! ## C9 — exchange-rate cache invariant -/

/-- One `getExchangeRate()` call preserves truthiness of the stored rate. -/
theorem rateStep_preserves_truthy (st : RateCache) (now : ℕ) (f : RateFetch)
    (h : numTruthy st.rate = true) :
    numTruthy (getExchangeRateStep st now f).1.rate = true := by
  unfold getExchangeRateStep
  split
  · exact h
  · cases f with
    | ok usdRate =>
        by_cases hu : numTruthy usdRate = true
        · simp [hu]
        · simp only [Bool.not_eq_true] at hu
          simp [hu, h]
    | fail => exact h

/-- A fruitless call (thrown error, or falsy extracted rate field) leaves the
cache record unchanged and serves the stored rate. -/
theorem rateStep_fruitless (st : RateCache) (now : ℕ) (f : RateFetch)
    (hf : rateFetchFruitless f) :
    getExchangeRateStep st now f = (st, st.rate) := by
  unfold getExchangeRateStep
  split
  · rfl
  · cases f with
    | ok usdRate =>
        simp only [rateFetchFruitless] at hf
        simp [hf]
    | fail => rfl

/-- Any run of calls from a truthy rate keeps the rate truthy. -/
theorem runRateCalls_truthy (calls : List (ℕ × RateFetch)) (st : RateCache)
    (h : numTruthy st.rate = true) :
    numTruthy (runRateCalls st calls).rate = true := by
  induction calls generalizing st with
  | nil => exact h
  | cons c rest ih =>
      exact ih _ (rateStep_preserves_truthy st c.1 c.2 h)

/-- C9: in every reachable state of the exchange-rate cache the served rate
is defined: the cache is seeded with the fallback rate `0.00074`; after any
sequence of calls the stored rate is a truthy (defined, nonzero) number;
a call whose provider outcome is fruitless (error or falsy rate field)
changes nothing; the stored rate changes only through a successful refresh
carrying a truthy rate, which becomes the new stored rate; each call serves
exactly the post-call stored rate; and after any sequence of entirely
fruitless calls the served state is still the seeded fallback. -/
theorem claim_C9_rate_always_defined :
    initRateCache.rate = some (74 / 100000) ∧
    (∀ calls : List (ℕ × RateFetch),
      numTruthy (runRateCalls initRateCache calls).rate = true ∧
      (runRateCalls initRateCache calls).rate ≠ none) ∧
    (∀ (st : RateCache) (now : ℕ) (f : RateFetch), rateFetchFruitless f →
      getExchangeRateStep st now f = (st, st.rate)) ∧
    (∀ (st : RateCache) (now : ℕ) (f : RateFetch),
      (getExchangeRateStep st now f).1.rate = st.rate ∨
      ∃ u : ℚ, f = RateFetch.ok (some u) ∧ u ≠ 0 ∧
        (getExchangeRateStep st now f).1.rate = some u) ∧
    (∀ (st : RateCache) (now : ℕ) (f : RateFetch),
      (getExchangeRateStep st now f).2 = (getExchangeRateStep st now f).1.rate) ∧
    (∀ calls : List (ℕ × RateFetch), (∀ c ∈ calls, rateFetchFruitless c.2) →
      runRateCalls initRateCache calls = initRateCache) := by
  refine ⟨rfl, fun calls => ?_, rateStep_fruitless, fun st now f => ?_,
    fun st now f => ?_, fun calls hfr => ?_⟩
  · have h := runRateCalls_truthy calls initRateCache (by
      simp [numTruthy, initRateCache, bne_iff_ne])
    refine ⟨h, ?_⟩
    intro hn
    rw [hn] at h
    simp [numTruthy] at h
  · unfold getExchangeRateStep
    split
    · exact Or.inl rfl
    · cases f with
      | ok usdRate =>
          by_cases hu : numTruthy usdRate = true
          · cases usdRate with
            | none => simp [numTruthy] at hu
            | some u =>
                refine Or.inr ⟨u, rfl, ?_, ?_⟩
                · simpa [numTruthy] using hu
                · simp [hu]
          · simp only [Bool.not_eq_true] at hu
            simp [hu]
      | fail => exact Or.inl rfl
  · unfold getExchangeRateStep
    split
    · rfl
    · cases f with
      | ok usdRate =>
          by_cases hu : numTruthy usdRate = true
          · simp [hu]
          · simp only [Bool.not_eq_true] at hu
            simp [hu]
      | fail => rfl
  · induction calls with
    | nil => rfl
    | cons c rest ih =>
        have hst : getExchangeRateStep initRateCache c.1 c.2 =
            (initRateCache, initRateCache.rate) :=
          rateStep_fruitless _ _ _ (hfr c (List.mem_cons_self c rest))
        have hrest := ih (fun d hd => hfr d (List.mem_cons_of_mem c hd))
        calc runRateCalls initRateCache (c :: rest)
            = runRateCalls (getExchangeRateStep initRateCache c.1 c.2).1 rest := rfl
          _ = runRateCalls initRateCache rest := by rw [hst]
          _ = initRateCache := hrest

/-- Witness for C9: one failed refresh then one falsy-field refresh at later
times leave the seeded fallback rate in place and served. -/
theorem claim_C9_rate_always_defined_witness :
    runRateCalls initRateCache [(4000000000, RateFetch.fail),
      (8000000000, RateFetch.ok none)] = initRateCache ∧
    numTruthy (runRateCalls initRateCache [(4000000000, RateFetch.fail)]).rate =
      true := by
  constructor
  · exact claim_C9_rate_always_defined.2.2.2.2.2 _ (by
      intro c hc
      simp only [List.mem_cons, List.mem_singleton] at hc
      rcases hc with h | h | h
      · rw [h]; trivial
      · rw [h]; simp [rateFetchFruitless, numTruthy]
      · cases h)
  · exact ((claim_C9_rate_always_defined.2.1) _).1

/-! ## C10 — non-array upstream data still yields a success envelope -/

/-- C10: when the upstream `data` field is absent/falsy or not an array, the
products route still returns a `success: true` envelope with an empty
products list and count 0. -/
theorem claim_C10_empty_products (d : UpstreamProductsData) (sq : Option String)
    (h : d.data = DataField.absent ∨ d.data = DataField.notArray) :
    (productsRouteResponse d sq).success = true ∧
    (productsRouteResponse d sq).products = [] ∧
    (productsRouteResponse d sq).count = 0 := by
  rcases h with h | h <;> simp [productsRouteResponse, h]

/-- Witness for C10 at a response whose `data` field is absent. -/
theorem claim_C10_empty_products_witness :
    (productsRouteResponse
        { data := DataField.absent, nextCursor := none, hasNext := some false }
        (some "12")).success = true ∧
    (productsRouteResponse
        { data := DataField.absent, nextCursor := none, hasNext := some false }
        (some "12")).count = 0 := by
  have h := claim_C10_empty_products
    { data := DataField.absent, nextCursor := none, hasNext := some false }
    (some "12") (Or.inl rfl)
  exact ⟨h.1, h.2.2⟩

/-! ## C8 — fresh nonce and signature on every issuance -/

/-- The payload JSON determines the nonce (for fixed `iat`, `accessKey`,
`exp`). -/
theorem payloadJsonChars_nonce_inj (p₁ p₂ : JwtPayload) (hiat : p₁.iat = p₂.iat)
    (hak : p₁.accessKey = p₂.accessKey) (hexp : p₁.exp = p₂.exp)
    (h : payloadJsonChars p₁ = payloadJsonChars p₂) : p₁.nonce = p₂.nonce := by
  unfold payloadJsonChars at h
  rw [hiat, hak, hexp] at h
  simp only [List.append_assoc] at h
  exact String.ext (List.append_cancel_right (List.append_cancel_left h))

/-- The hand-rolled payload JSON determines the nonce (for fixed `iat`,
`accessKey`). -/
theorem bunjangPayloadJsonChars_nonce_inj (p₁ p₂ : BunjangTokenPayload)
    (hiat : p₁.iat = p₂.iat) (hak : p₁.accessKey = p₂.accessKey)
    (h : bunjangPayloadJsonChars p₁ = bunjangPayloadJsonChars p₂) :
    p₁.nonce = p₂.nonce := by
  unfold bunjangPayloadJsonChars at h
  rw [hiat, hak] at h
  simp only [List.append_assoc] at h
  exact String.ext (List.append_cancel_right (List.append_cancel_left h))

/-- Unique parsing of a dot-separated segment: if neither leading segment
contains a dot, equal concatenations have equal segments and equal
remainders. -/
theorem dot_segment_eq (a₁ : List Char) :
    ∀ (a₂ r₁ r₂ : List Char), '.' ∉ a₁ → '.' ∉ a₂ →
      a₁ ++ '.' :: r₁ = a₂ ++ '.' :: r₂ → a₁ = a₂ ∧ r₁ = r₂ := by
  induction a₁ with
  | nil =>
      intro a₂ r₁ r₂ _ h₂ h
      cases a₂ with
      | nil => simpa using h
      | cons c cs =>
          simp only [List.nil_append, List.cons_append, List.cons.injEq] at h
          exact absurd (h.1 ▸ List.mem_cons_self c cs) h₂
  | cons b bs ih =>
      intro a₂ r₁ r₂ h₁ h₂ h
      cases a₂ with
      | nil =>
          simp only [List.cons_append, List.nil_append, List.cons.injEq] at h
          exact absurd (h.1 ▸ List.mem_cons_self b bs) h₁
      | cons c cs =>
          simp only [List.cons_append, List.cons.injEq] at h
          have hrec := ih cs r₁ r₂ (fun hm => h₁ (List.mem_cons_of_mem b hm))
            (fun hm => h₂ (List.mem_cons_of_mem c hm)) h.2
          exact ⟨by rw [h.1, hrec.1], hrec.2⟩

/-- C8: modelling the nonce source and the clock as inputs, two consecutive
issuances with the same whole-second timestamp, the same access key, and any
(equal or different) method arguments, but distinct fresh nonces, produce:
distinct payloads carrying exactly their own nonces, distinct signed byte
strings, hence (for any injective HMAC behaviour) distinct signatures, and
distinct tokens — in the `jwt.sign`-based `BunjangAuthService.generateToken`
and likewise in the hand-rolled `generateBunjangToken` (for any injective,
dot-free base64url primitive).  The issuer is a pure function of its inputs
with no cache, and the `method` argument does not enter the token, so no
credential is reused across calls for any method. -/
theorem claim_C8_fresh_credentials (hmac : List Char → List ℕ)
    (b64 hmacB64 : List Char → List Char) (accessKey n₁ n₂ : String)
    (nowMs : ℕ) (m₁ m₂ : String) (hn : n₁ ≠ n₂)
    (hb64inj : Function.Injective b64) (hb64dot : ∀ l, '.' ∉ b64 l) :
    (generateToken hmac accessKey n₁ nowMs m₁).payload.nonce = n₁ ∧
    (generateToken hmac accessKey n₂ nowMs m₂).payload.nonce = n₂ ∧
    (generateToken hmac accessKey n₁ nowMs m₁).payload ≠
      (generateToken hmac accessKey n₂ nowMs m₂).payload ∧
    signingInput (generateToken hmac accessKey n₁ nowMs m₁).header
        (generateToken hmac accessKey n₁ nowMs m₁).payload ≠
      signingInput (generateToken hmac accessKey n₂ nowMs m₂).header
        (generateToken hmac accessKey n₂ nowMs m₂).payload ∧
    (Function.Injective hmac →
      (generateToken hmac accessKey n₁ nowMs m₁).signature ≠
        (generateToken hmac accessKey n₂ nowMs m₂).signature) ∧
    generateToken hmac accessKey n₁ nowMs m₁ ≠
      generateToken hmac accessKey n₂ nowMs m₂ ∧
    generateToken hmac accessKey n₁ nowMs m₁ =
      generateToken hmac accessKey n₁ nowMs m₂ ∧
    generateBunjangToken b64 hmacB64 accessKey n₁ nowMs ≠
      generateBunjangToken b64 hmacB64 accessKey n₂ nowMs := by
  have hsign : signingInput (generateToken hmac accessKey n₁ nowMs m₁).header
      (generateToken hmac accessKey n₁ nowMs m₁).payload ≠
      signingInput (generateToken hmac accessKey n₂ nowMs m₂).header
      (generateToken hmac accessKey n₂ nowMs m₂).payload := by
    intro h
    unfold signingInput at h
    have h1 := List.append_cancel_left h
    have h2 : payloadJsonChars (generateToken hmac accessKey n₁ nowMs m₁).payload =
        payloadJsonChars (generateToken hmac accessKey n₂ nowMs m₂).payload :=
      List.tail_eq_of_cons_eq h1
    exact hn (payloadJsonChars_nonce_inj
      (generateToken hmac accessKey n₁ nowMs m₁).payload
      (generateToken hmac accessKey n₂ nowMs m₂).payload rfl rfl rfl h2)
  refine ⟨rfl, rfl, ?_, hsign, ?_, ?_, rfl, ?_⟩
  · intro h
    exact hn (congrArg JwtPayload.nonce h)
  · intro hinj h
    exact hsign (hinj h)
  · intro h
    exact hn (congrArg (fun t => t.payload.nonce) h)
  · intro h
    dsimp only [generateBunjangToken] at h
    have h1 := List.append_cancel_left h
    have h2 := List.tail_eq_of_cons_eq h1
    have h3 := dot_segment_eq _ _ _ _ (hb64dot _) (hb64dot _) h2
    have h4 := hb64inj h3.1
    exact hn (bunjangPayloadJsonChars_nonce_inj
      { iat := nowMs / 1000, accessKey := accessKey, nonce := n₁ }
      { iat := nowMs / 1000, accessKey := accessKey, nonce := n₂ } rfl rfl h4)

/-- An injective, dot-free stand-in for the base64url primitive, used to
instantiate the C8 hypotheses at a concrete input: each character is encoded
as a two-character block. -/
def pairEncode (l : List Char) : List Char :=
  l.flatMap (fun c => if c = '.' then ['e', 'd'] else ['c', c])

/-- Block decoder for `pairEncode`. -/
def pairDecode : List Char → List Char
  | t :: c :: rest => (if t = 'e' then '.' else c) :: pairDecode rest
  | _ => []

/-- Decoder `pairDecode` inverts `pairEncode`. -/
theorem pairDecode_pairEncode (l : List Char) : pairDecode (pairEncode l) = l := by
  induction l with
  | nil => rfl
  | cons c rest ih =>
      by_cases h : c = '.'
      · simp [pairEncode, pairDecode, h] at *
        simpa [h] using ih
      · simp only [pairEncode, List.flatMap_cons, if_neg h] at *
        simpa [pairDecode, h] using ih

/-- Encoder `pairEncode` is injective. -/
theorem pairEncode_injective : Function.Injective pairEncode := by
  intro a b h
  rw [← pairDecode_pairEncode a, ← pairDecode_pairEncode b, h]

/-- Encoder `pairEncode` never emits a dot. -/
theorem pairEncode_no_dot (l : List Char) : '.' ∉ pairEncode l := by
  induction l with
  | nil => simp [pairEncode]
  | cons c rest ih =>
      simp only [pairEncode, List.flatMap_cons, List.mem_append] at *
      rintro (hm | hm)
      · by_cases h : c = '.'
        · rw [if_pos h] at hm
          exact absurd hm (by decide)
        · rw [if_neg h] at hm
          simp only [List.mem_cons, List.mem_singleton] at hm
          rcases hm with h' | h' | h'
          · exact absurd h' (by decide)
          · exact h h'.symm
          · exact absurd h' (List.not_mem_nil _)
      · exact ih hm

/-- Witness for C8 at distinct nonces `"n1"`, `"n2"`, a fixed timestamp, the
`GET` method on both calls, a constant HMAC stand-in, and the injective
dot-free `pairEncode` as the base64url primitive. -/
theorem claim_C8_fresh_credentials_witness :
    generateToken (fun _ => []) "ak" "n1" 1700000000000 "GET" ≠
      generateToken (fun _ => []) "ak" "n2" 1700000000000 "GET" ∧
    generateBunjangToken pairEncode pairEncode "ak" "n1" 1700000000000 ≠
      generateBunjangToken pairEncode pairEncode "ak" "n2" 1700000000000 := by
  have h := claim_C8_fresh_credentials (fun _ => []) pairEncode pairEncode
    "ak" "n1" "n2" 1700000000000 "GET" "GET" (by decide)
    pairEncode_injective pairEncode_no_dot
  exact ⟨h.2.2.2.2.2.1, h.2.2.2.2.2.2.2⟩

end BunjangShopify
